import Mathlib

/-!
Verification of the Lazy_texter service (src/app.py) against its
natural-language specification.  The Python code is shallowly embedded:
pure string manipulation becomes Lean functions on `String` / `List Char`,
the vector collection becomes a list of records in insertion order, the
per-chat sequence counter becomes an explicit `Nat`, and the external
generation API and the similarity query are oracles passed as arguments.
-/

set_option maxRecDepth 20000

namespace LazyTexter

/-! ## Python string primitives -/

/-- ASCII whitespace, as recognised by Python `str.strip`, `str.split`
and the regex class used in the code. -/
def isPySpace (c : Char) : Bool :=
  c = ' ' || c = '\t' || c = '\n' || c = '\x0d' || c = '\x0b' || c = '\x0c'

/-- Python `str.strip()` on the character list of a string. -/
def pyStrip (s : List Char) : List Char :=
  ((s.dropWhile isPySpace).reverse.dropWhile isPySpace).reverse

/-- Python `str.strip()`. -/
def pyStripStr (s : String) : String :=
  String.mk (pyStrip s.data)

/-- Helper for `pySplit`: `acc` holds the current in-progress word reversed. -/
def pySplitAux : List Char → List Char → List (List Char)
  | [], [] => []
  | [], acc => [acc.reverse]
  | c :: cs, acc =>
    if isPySpace c then
      match acc with
      | [] => pySplitAux cs []
      | _ => acc.reverse :: pySplitAux cs []
    else pySplitAux cs (c :: acc)

/-- Python `str.split()` with no separator: split on runs of whitespace,
discarding empty words. -/
def pySplit (s : String) : List (List Char) :=
  pySplitAux s.data []

/-- `len(user_message.split())` from the code. -/
def wordCount (s : String) : Nat :=
  (pySplit s).length

/-- Python `str.upper()` (the stance labels are ASCII). -/
def pyUpper (s : String) : String :=
  String.mk (s.data.map Char.toUpper)

/-! ## Output sanitisation (generate_reply lines 195-197)

`cleaned_text = generated_text.strip()`
`cleaned_text = cleaned_text.replace('*', '').replace('_', '')`
`cleaned_text = re.sub(r'\s"([^"]{1,30})"\s', r' \1 ', cleaned_text)`
-/

/-- `.replace('*', '').replace('_', '')`: drop every asterisk and underscore. -/
def removeEmphasis (s : List Char) : List Char :=
  s.filter (fun c => !(c = '*' || c = '_'))

/-- Scan up to the first double quote; return the characters before it and
the characters after it, or `none` when no quote remains. -/
def takeToQuote : List Char → Option (List Char × List Char)
  | [] => none
  | c :: rest =>
    if c = '"' then some ([], rest)
    else (takeToQuote rest).map (fun p => (c :: p.1, p.2))

/-- One left-to-right pass of `re.sub(r'\s"([^"]{1,30})"\s', r' \1 ', ...)`,
with a fuel argument for structural recursion (fuel at least the length of
the list never runs out, since every step consumes at least one character).
A match needs a whitespace character, an opening quote, one to thirty
non-quote characters, a closing quote and a trailing whitespace character;
the whole match is replaced by space, content, space, and scanning resumes
after the consumed trailing whitespace. -/
def pySubQuotedAux : Nat → List Char → List Char
  | 0, l => l
  | _ + 1, [] => []
  | fuel + 1, c :: rest =>
    if isPySpace c then
      match rest with
      | r0 :: t =>
        if r0 = '"' then
          match takeToQuote t with
          | some (content, rest2) =>
            if 1 ≤ content.length ∧ content.length ≤ 30 then
              match rest2 with
              | w :: rest3 =>
                if isPySpace w then
                  ' ' :: (content ++ ' ' :: pySubQuotedAux fuel rest3)
                else c :: pySubQuotedAux fuel rest
              | [] => c :: pySubQuotedAux fuel rest
            else c :: pySubQuotedAux fuel rest
          | none => c :: pySubQuotedAux fuel rest
        else c :: pySubQuotedAux fuel rest
      | [] => c :: pySubQuotedAux fuel rest
    else c :: pySubQuotedAux fuel rest

/-- `re.sub(r'\s"([^"]{1,30})"\s', r' \1 ', l)`. -/
def pySubQuoted (l : List Char) : List Char :=
  pySubQuotedAux l.length l

/-- The full post-processing pipeline applied to a successful generation:
strip, remove emphasis characters, collapse short quoted runs. -/
def cleanGeneratedText (s : String) : String :=
  String.mk (pySubQuoted (removeEmphasis (pyStrip s.data)))

/-! ## Persona registry (app.py lines 44-59) -/

def PERSONAS : List (String × String) :=
  [("The Strategist", "You are a highly composed, nerd-like professional, inspired by Gary Johnson from Hitman. You speak with quiet confidence, carry an intriguing aura, and balance intellect with subtle humor. You show great chemistry in conversation, sounding observant, analytical, and sharp—always a step ahead without losing charm."),
   ("The Visionary", "You are Eddie Morra from Limitless when on NZT: supremely confident, witty, flirtatious, and razor-sharp. Your speech is smooth, fast-paced, and assertive, always laced with clever observations. You sound interesting and magnetic, as if you can read the world in detail and bend it to your will."),
   ("The Rebel", "You embody Tyler Durden from Fight Club: a dark philosopher and anarchist. You challenge consumerism and conformity, speaking with passion, madness, and a dangerous kind of charisma. Your tone is raw, rebellious, and existential, with a readiness to fight and a dedication to tearing down illusions."),
   ("The Orator", "You speak like an 18th-century Englishman—rhetorical, poetic, and refined. Your language is ornate and formal, filled with metaphors and elevated diction. You sound weary yet profound, as though you are both observing and lamenting the world with philosophical eloquence."),
   ("The Conversationalist", "You are a modern Gen Z American, casual yet mature. Your tone is natural, conversational, and slightly witty, but not slang-heavy like rap. You mix straightforward realism with light humor, sounding relatable, grounded, and socially aware without trying too hard.")]

/-- Dictionary lookup `PERSONAS[name]` / membership `name in PERSONAS`. -/
def personaVoice (name : String) : Option String :=
  (PERSONAS.find? (fun p => p.1 = name)).map Prod.snd

/-! ## Prompt composition (generate_reply lines 125-168) -/

/-- The rephrase task instruction built from the draft answer. -/
def taskInstructionOf (response_hint : String) : String :=
  "The user wants to reply with: \x27" ++ response_hint ++
    "\x27. Rephrase this response in your persona\x27s voice and style while keeping the same core meaning. Make it sound natural and characteristic of your persona."

/-- The tiered length directive (lines 144-151). -/
def lengthInstruction (user_message : String) : String :=
  let input_words := wordCount user_message
  if input_words < 15 then
    "Keep your response to 1-2 sentences maximum (under 30 words)."
  else if input_words < 30 then
    "Keep your response to 2-3 sentences (under 50 words)."
  else
    "Keep your response concise (under 80 words)."

/-- The fixed plain-text formatting directive shared by both modes. -/
def textingDirective : String :=
  "Write as if texting - use natural conversational language without asterisks, underscores, quotation marks for emphasis, or any special formatting. Output should be plain text ready to copy and paste directly into a chat."

/-- The memory-usage directive attached when retrieved context is present. -/
def memoryDirectiveText : String :=
  "Context from past conversations is shown above. Only reference it if directly relevant to answering the current question. If the current message is a new topic, respond independently."

structure PromptPayload where
  user_content : String
  system_prompt : String
deriving DecidableEq

/-- Lines 125-159: build the user content and the system prompt from the
persona voice, the message, the stance, the optional draft answer and the
retrieved memory context. -/
def composePrompt (system_instruction user_message stance response_hint
    memory_context : String) : PromptPayload :=
  if response_hint ≠ "" then
    let task_instruction := taskInstructionOf response_hint
    let user_message_with_context :=
      "Incoming message: " ++ user_message ++ "\n\nUser\x27s draft response: " ++
        response_hint ++ "\n\n" ++ task_instruction
    let stance_instruction := lengthInstruction user_message ++ " " ++ textingDirective
    { user_content := user_message_with_context
      system_prompt := system_instruction ++ " " ++ stance_instruction }
  else
    let user_message_with_context :=
      if memory_context ≠ "" then memory_context ++ "Current message: " ++ user_message
      else user_message
    let memory_instruction := if memory_context ≠ "" then memoryDirectiveText else ""
    let stance_instruction :=
      "Your response MUST " ++ pyUpper stance ++ " with the user\x27s message. " ++
        lengthInstruction user_message ++ " " ++ textingDirective ++ " " ++ memory_instruction
    { user_content := user_message_with_context
      system_prompt := system_instruction ++ " " ++ stance_instruction }

/-! ## Retrieval (retrieve_relevant_context_rag, lines 90-120)

The vector store's similarity query is an oracle: `Except Unit QueryResults`,
where `.error` stands for an exception raised by the query.  The function
returns the context string together with the number of similarity queries
it performed against the collection. -/

structure RagMetadata where
  response : String
  persona : String
  stance : String
  timestamp : String
deriving DecidableEq

structure QueryResults where
  documents : List (List String)
  metadatas : List (List RagMetadata)

/-- The numbered past-conversation entries, `enumerate(..., 1)` style. -/
def formatContextEntries : Nat → List (String × RagMetadata) → String
  | _, [] => ""
  | i, (doc, md) :: rest =>
    "\n" ++ Nat.repr i ++ ". Past question: \"" ++ doc ++ "\"\n" ++
      "   You (" ++ md.persona ++ ") replied: \"" ++ md.response ++ "\"\n" ++
      formatContextEntries (i + 1) rest

def contextHeader : String :=
  "\n--- RELEVANT PAST CONVERSATIONS (Retrieved via Semantic Search) ---\n"

def contextFooter : String :=
  "\n--- END OF RETRIEVED CONTEXT ---\nNote: These conversations were retrieved because they are semantically similar to the current message. Reference them naturally if relevant.\n\n"

def retrieve_relevant_context_rag (collection_count : Nat)
    (query : Except Unit QueryResults) : String × Nat :=
  if collection_count = 0 then ("", 0)
  else
    match query with
    | .error _ => ("", 1)
    | .ok results =>
      match results.documents with
      | [] => ("", 1)
      | docs0 :: _ =>
        match docs0 with
        | [] => ("", 1)
        | _ =>
          match results.metadatas with
          | [] => ("", 1)
          | metas0 :: _ =>
            (contextHeader ++ formatContextEntries 1 (docs0.zip metas0) ++
              contextFooter, 1)

/-! ## Memory storage (store_conversation_rag, lines 63-88) -/

structure ConversationRecord where
  conv_id : String
  user_message : String
  response : String
  persona : String
  stance : String
  timestamp : String
deriving DecidableEq

/-- One chat's collection (in insertion order, as returned by `get`) and
its entry in `conversation_counter`. -/
structure ChatState where
  records : List ConversationRecord
  seq : Nat
deriving DecidableEq

def mkRecord (chat_id : String) (n : Nat)
    (user_message persona stance response timestamp : String) : ConversationRecord :=
  { conv_id := chat_id ++ "_" ++ Nat.repr n
    user_message := user_message
    response := response
    persona := persona
    stance := stance
    timestamp := timestamp }

/-- Lines 63-88: increment the counter, mint the id, append the record,
then delete the oldest `count - 20` records when the count exceeds 20. -/
def store_conversation_rag (st : ChatState) (chat_id user_message persona stance
    response timestamp : String) : ChatState :=
  let seq2 := st.seq + 1
  let recs := st.records ++ [mkRecord chat_id seq2 user_message persona stance response timestamp]
  let current_count := recs.length
  let recs2 := if current_count > 20 then recs.drop (current_count - 20) else recs
  { records := recs2, seq := seq2 }

/-! ## Generation client (generate_reply lines 170-214) -/

structure ApiPart where
  text : Option String
deriving DecidableEq

structure ApiCandidate where
  finishReason : Option String
  parts : List ApiPart
deriving DecidableEq

structure ApiResponse where
  candidates : Option (List ApiCandidate)

/-- The outbound HTTP call, as an oracle: either a parsed JSON body or an
exception (network error, timeout, non-2xx status). -/
inductive Upstream where
  | response (data : ApiResponse)
  | netError (e : String)

inductive GenResult where
  | ok (reply : String) (persona : String)
  | fail (error : String)
deriving DecidableEq

/-- Lines 183-214: extract the first candidate's first text part, clean it,
or classify the failure. -/
def parseApiResponse (persona_name : String) (upstream : Upstream) : GenResult :=
  match upstream with
  | .netError e => .fail ("Generation Error: " ++ e)
  | .response data =>
    match data.candidates with
    | some (candidate :: _) =>
      let finish_reason := candidate.finishReason.getD "UNKNOWN"
      let generated_text :=
        match candidate.parts with
        | [] => ""
        | p :: _ => p.text.getD ""
      if generated_text ≠ "" then
        .ok (cleanGeneratedText generated_text) persona_name
      else if finish_reason = "MAX_TOKENS" then
        .fail "Response cut off (MAX_TOKENS)."
      else if finish_reason = "SAFETY" then
        .fail "Response blocked by safety filters."
      else
        .fail ("No text generated. Reason: " ++ finish_reason)
    | _ => .fail "No candidates in response."

/-- The observable behaviour of one `generate_reply` call: its return value,
the payload it composed for the API, and how many similarity queries it ran
against the chat's collection. -/
structure GenOutcome where
  result : GenResult
  payload : PromptPayload
  retrieval_queries : Nat

/-- Lines 122-214.  The retrieval result and the upstream response are
oracles; the collection is summarised by its count (all retrieval uses). -/
def generate_reply (persona_name user_message stance : String)
    (collection_count : Nat) (response_hint : String)
    (query : Except Unit QueryResults) (upstream : Upstream) : GenOutcome :=
  let system_instruction := (personaVoice persona_name).getD ""
  let r := retrieve_relevant_context_rag collection_count query
  { result := parseApiResponse persona_name upstream
    payload := composePrompt system_instruction user_message stance response_hint r.1
    retrieval_queries := r.2 }

/-! ## HTTP surface (app.py lines 227-309) -/

/-- The keys of `CHAT_COLLECTIONS`. -/
def CHAT_IDS : List String := ["Timo", "Shark"]

/-- The process-wide mutable state: one collection and one counter entry
per chat identifier. -/
structure ServerState where
  chats : String → ChatState

def updateChat (st : ServerState) (chat_id : String) (cs : ChatState) : ServerState :=
  { chats := fun c => if c = chat_id then cs else st.chats c }

/-- The JSON body of `POST /generate`; a field that is absent in the
request is `none`. -/
structure GenRequest where
  message : Option String
  persona : Option String
  stance : Option String
  chat_id : Option String
  response_hint : Option String

inductive EndpointResult where
  | badRequest (error : String)
  | serverError (error : String)
  | okResult (r : GenResult)
deriving DecidableEq

/-- Lines 227-260: validate the request, run the generation, and persist
the exchange only when generation succeeded. -/
def generate_single_reply (api_key : String) (req : GenRequest) (st : ServerState)
    (query : Except Unit QueryResults) (upstream : Upstream) (now : String) :
    EndpointResult × ServerState :=
  if api_key = "" then (.serverError "API key missing", st)
  else
    let user_message := pyStripStr (req.message.getD "")
    let persona_name := req.persona.getD ""
    let stance := req.stance.getD "Agree"
    let chat_id := req.chat_id.getD "Timo"
    let response_hint := pyStripStr (req.response_hint.getD "")
    if user_message = "" then (.badRequest "Message is required", st)
    else if (personaVoice persona_name).isNone then (.badRequest "Invalid persona", st)
    else if !(CHAT_IDS.contains chat_id) then (.badRequest "Invalid chat ID", st)
    else
      let outcome := generate_reply persona_name user_message stance
        ((st.chats chat_id).records.length) response_hint query upstream
      match outcome.result with
      | .ok reply _ =>
        (.okResult outcome.result,
          updateChat st chat_id
            (store_conversation_rag (st.chats chat_id) chat_id user_message
              persona_name stance reply now))
      | .fail _ => (.okResult outcome.result, st)

inductive SimpleResult where
  | badRequest (error : String)
  | okMessage (message : String)
deriving DecidableEq

/-- Lines 292-309: `DELETE /memory/<chat_id>` deletes every stored id and
resets the chat's counter. -/
def clear_memory (st : ServerState) (chat_id : String) : SimpleResult × ServerState :=
  if !(CHAT_IDS.contains chat_id) then (.badRequest "Invalid chat ID", st)
  else
    (.okMessage (chat_id ++ " memory cleared"),
      updateChat st chat_id { records := [], seq := 0 })

/-! ## Runs of successful generations (for the memory invariants) -/

/-- The data of one successful generation, as passed to the memory writer. -/
structure StoreInput where
  user_message : String
  persona : String
  stance : String
  response : String
  timestamp : String

/-- Apply `store_conversation_rag` once per input, oldest first. -/
def runStores (chat_id : String) : List StoreInput → ChatState → ChatState
  | [], st => st
  | i :: rest, st =>
    runStores chat_id rest
      (store_conversation_rag st chat_id i.user_message i.persona i.stance
        i.response i.timestamp)

/-- The records a run of stores mints, in insertion order, when the
counter starts at `seq`. -/
def mintedRecords (chat_id : String) (seq : Nat) : List StoreInput → List ConversationRecord
  | [] => []
  | i :: rest =>
    mkRecord chat_id (seq + 1) i.user_message i.persona i.stance i.response i.timestamp ::
      mintedRecords chat_id (seq + 1) rest

/-- The ids a run of stores mints, in insertion order. -/
def mintedIds (chat_id : String) (seq : Nat) (ins : List StoreInput) : List String :=
  (mintedRecords chat_id seq ins).map (·.conv_id)

/-! ## Helper lemmas: strings and decimal representations -/

theorem string_eq_of_data {a b : String} (h : a.data = b.data) : a = b := by
  obtain ⟨a⟩ := a
  obtain ⟨b⟩ := b
  exact congrArg String.mk h

/-- The digits of `n` in base ten, most significant first, by structural
descent on `n / 10`; reference function for `Nat.toDigitsCore`. -/
def natDigits (n : Nat) : List Char :=
  if h : n < 10 then [Nat.digitChar n]
  else natDigits (n / 10) ++ [Nat.digitChar (n % 10)]
termination_by n
decreasing_by exact Nat.div_lt_self (by omega) (by omega)

theorem natDigits_ne_nil (n : Nat) : natDigits n ≠ [] := by
  rw [natDigits]
  split <;> simp

theorem natDigits_lt (k : Nat) (hk : k < 10) : natDigits k = [Nat.digitChar k] := by
  rw [natDigits]
  simp [hk]

theorem natDigits_ge (k : Nat) (hk : ¬ k < 10) :
    natDigits k = natDigits (k / 10) ++ [Nat.digitChar (k % 10)] := by
  rw [natDigits]
  simp [hk]

theorem toDigitsCore_eq_natDigits :
    ∀ (fuel n : Nat) (ds : List Char), n < fuel →
      Nat.toDigitsCore 10 fuel n ds = natDigits n ++ ds := by
  intro fuel
  induction fuel with
  | zero => omega
  | succ f ih =>
    intro n ds h
    by_cases h0 : n / 10 = 0
    · have hn : n < 10 := by omega
      simp [Nat.toDigitsCore, h0, natDigits_lt n hn, Nat.mod_eq_of_lt hn]
    · have hn : ¬ n < 10 := by omega
      have hlt : n / 10 < f := by
        have := Nat.div_lt_self (by omega : 0 < n) (by omega : 1 < 10)
        omega
      rw [natDigits_ge n hn]
      simp [Nat.toDigitsCore, h0, ih (n / 10) _ hlt]

theorem digitChar_inj_lt :
    ∀ a < 10, ∀ b < 10, Nat.digitChar a = Nat.digitChar b → a = b := by decide

theorem natDigits_inj : ∀ m n : Nat, natDigits m = natDigits n → m = n := by
  intro m
  induction m using Nat.strong_induction_on with
  | _ m ih =>
    intro n h
    by_cases hm : m < 10 <;> by_cases hn : n < 10
    · rw [natDigits_lt m hm, natDigits_lt n hn] at h
      simp at h
      exact digitChar_inj_lt m hm n hn h
    · rw [natDigits_lt m hm, natDigits_ge n hn] at h
      have hlen := congrArg List.length h
      simp at hlen
      exact absurd hlen (natDigits_ne_nil (n / 10))
    · rw [natDigits_ge m hm, natDigits_lt n hn] at h
      have hlen := congrArg List.length h
      simp at hlen
      exact absurd hlen (natDigits_ne_nil (m / 10))
    · rw [natDigits_ge m hm, natDigits_ge n hn] at h
      obtain ⟨h1, h2⟩ := List.append_inj' h (by simp)
      have hdiv : m / 10 = n / 10 :=
        ih (m / 10) (Nat.div_lt_self (by omega) (by omega)) _ h1
      have hmod : m % 10 = n % 10 := by
        simp at h2
        exact digitChar_inj_lt (m % 10) (by omega) (n % 10) (by omega) h2
      omega

theorem natRepr_inj {m n : Nat} (h : Nat.repr m = Nat.repr n) : m = n := by
  have hm : Nat.repr m = String.mk (natDigits m) := by
    simp [Nat.repr, Nat.toDigits, List.asString,
      toDigitsCore_eq_natDigits (m + 1) m [] (by omega)]
  have hn : Nat.repr n = String.mk (natDigits n) := by
    simp [Nat.repr, Nat.toDigits, List.asString,
      toDigitsCore_eq_natDigits (n + 1) n [] (by omega)]
  rw [hm, hn] at h
  exact natDigits_inj m n (congrArg String.data h)

theorem mint_id_inj {chat_id : String} {a b : Nat}
    (h : chat_id ++ "_" ++ Nat.repr a = chat_id ++ "_" ++ Nat.repr b) : a = b := by
  have h2 := congrArg String.data h
  simp only [String.data_append, List.append_assoc, List.append_cancel_left_eq] at h2
  exact natRepr_inj (string_eq_of_data h2)

/-! ## Helper lemmas: the memory writer -/

/-- Unfolded form of one store: the new record is appended and the prefix
beyond the cap is dropped (dropping zero records when at most 20 remain). -/
theorem store_conversation_rag_eq (st : ChatState)
    (chat_id user_message persona stance response timestamp : String) :
    store_conversation_rag st chat_id user_message persona stance response timestamp =
      { records := (st.records ++
          [mkRecord chat_id (st.seq + 1) user_message persona stance response timestamp]).drop
            (st.records.length + 1 - 20)
        seq := st.seq + 1 } := by
  simp only [store_conversation_rag, List.length_append, List.length_cons, List.length_nil]
  split
  · rfl
  · rename_i hle
    rw [Nat.sub_eq_zero_of_le (by omega), List.drop_zero]

theorem mintedRecords_length (chat_id : String) :
    ∀ (ins : List StoreInput) (seq : Nat),
      (mintedRecords chat_id seq ins).length = ins.length := by
  intro ins
  induction ins with
  | nil => intro seq; rfl
  | cons i rest ih => intro seq; simp [mintedRecords, ih]

/-- Closed form of a run of stores: the counter advances by the number of
stores; the collection is the suffix of all minted records that fits under
the 20-record cap (together with whatever of the starting records survive). -/
theorem runStores_eq (chat_id : String) :
    ∀ (ins : List StoreInput) (st : ChatState), st.records.length ≤ 20 →
      runStores chat_id ins st =
        { records := (st.records ++ mintedRecords chat_id st.seq ins).drop
            (st.records.length + ins.length - 20)
          seq := st.seq + ins.length } := by
  intro ins
  induction ins with
  | nil =>
    intro st h
    simp [runStores, mintedRecords, Nat.sub_eq_zero_of_le h]
  | cons i rest ih =>
    intro st h
    rw [runStores, store_conversation_rag_eq]
    have hlen : ((st.records ++
        [mkRecord chat_id (st.seq + 1) i.user_message i.persona i.stance i.response
          i.timestamp]).drop (st.records.length + 1 - 20)).length ≤ 20 := by
      simp [List.length_drop]
      omega
    rw [ih _ hlen]
    simp only [ChatState.mk.injEq]
    constructor
    · have hd : st.records.length + 1 - 20 ≤
          (st.records ++ [mkRecord chat_id (st.seq + 1) i.user_message i.persona i.stance
            i.response i.timestamp]).length := by
        simp
        omega
      rw [← List.drop_append_of_le_length hd, List.drop_drop]
      simp only [mintedRecords]
      rw [show st.records ++ mkRecord chat_id (st.seq + 1) i.user_message i.persona i.stance
            i.response i.timestamp :: mintedRecords chat_id (st.seq + 1) rest =
          (st.records ++ [mkRecord chat_id (st.seq + 1) i.user_message i.persona i.stance
            i.response i.timestamp]) ++ mintedRecords chat_id (st.seq + 1) rest by simp]
      congr 1
      simp [List.length_drop, List.length_append]
      omega
    · simp only [List.length_cons]
      omega

theorem mintedIds_eq (chat_id : String) :
    ∀ (ins : List StoreInput) (seq : Nat),
      mintedIds chat_id seq ins =
        (List.range ins.length).map (fun k => chat_id ++ "_" ++ Nat.repr (seq + k + 1)) := by
  intro ins
  induction ins with
  | nil => intro seq; rfl
  | cons i rest ih =>
    intro seq
    simp only [mintedIds, mintedRecords, List.map_cons, List.length_cons,
      List.range_succ_eq_map, mkRecord, List.cons.injEq]
    constructor
    · simp
    · rw [← mintedIds]
      rw [ih (seq + 1)]
      rw [List.map_map]
      apply List.map_congr_left
      intro k _
      simp only [Function.comp]
      congr 2
      omega

theorem mintedIds_nodup (chat_id : String) (ins : List StoreInput) (seq : Nat) :
    (mintedIds chat_id seq ins).Nodup := by
  rw [mintedIds_eq]
  apply List.Nodup.map
  · intro a b hab
    have := mint_id_inj hab
    omega
  · exact List.nodup_range _

/-! ## Helper lemmas: sanitisation -/

theorem takeToQuote_mem :
    ∀ {l content rest : List Char}, takeToQuote l = some (content, rest) →
      ∀ c : Char, (c ∈ content → c ∈ l) ∧ (c ∈ rest → c ∈ l) := by
  intro l
  induction l with
  | nil => intro content rest h; simp [takeToQuote] at h
  | cons x xs ih =>
    intro content rest h c
    simp only [takeToQuote] at h
    by_cases hx : x = '"'
    · simp [hx] at h
      obtain ⟨h1, h2⟩ := h
      subst h1
      subst h2
      constructor
      · intro hc
        simp at hc
      · intro hc
        exact List.mem_cons_of_mem _ hc
    · simp only [hx, if_false] at h
      cases h2 : takeToQuote xs with
      | none => rw [h2] at h; simp at h
      | some p =>
        obtain ⟨c1, r1⟩ := p
        rw [h2] at h
        simp at h
        obtain ⟨h1, hr⟩ := h
        subst hr
        have := ih h2 c
        constructor
        · intro hc
          rw [← h1] at hc
          rcases List.mem_cons.mp hc with hh | hh
          · exact hh ▸ List.mem_cons_self x xs
          · exact List.mem_cons_of_mem _ (this.1 hh)
        · intro hc
          exact List.mem_cons_of_mem _ (this.2 hc)

theorem mem_pySubQuotedAux :
    ∀ (fuel : Nat) (l : List Char) (c : Char), c ∈ pySubQuotedAux fuel l → c ∈ l ∨ c = ' ' := by
  intro fuel
  induction fuel with
  | zero => intro l c h; exact Or.inl h
  | succ f ih =>
    intro l c h
    cases l with
    | nil => simp [pySubQuotedAux] at h
    | cons x rest =>
      simp only [pySubQuotedAux] at h
      have fallback : c ∈ x :: pySubQuotedAux f rest → c ∈ x :: rest ∨ c = ' ' := by
        intro hf
        rcases List.mem_cons.mp hf with hh | hh
        · exact Or.inl (hh ▸ List.mem_cons_self x rest)
        · rcases ih rest c hh with h3 | h3
          · exact Or.inl (List.mem_cons_of_mem _ h3)
          · exact Or.inr h3
      repeat split at h
      all_goals try exact fallback h
      rename_i heq hw
      rcases List.mem_cons.mp h with hh | hh
      · exact Or.inr hh
      · rcases List.mem_append.mp hh with hc | hc
        · have := (takeToQuote_mem heq c).1 hc
          exact Or.inl (List.mem_cons_of_mem _ (List.mem_cons_of_mem _ this))
        · rcases List.mem_cons.mp hc with hsp | hrec
          · exact Or.inr hsp
          · rcases ih _ c hrec with h3 | h3
            · have h4 := (takeToQuote_mem heq c).2 (List.mem_cons_of_mem _ h3)
              exact Or.inl (List.mem_cons_of_mem _ (List.mem_cons_of_mem _ h4))
            · exact Or.inr h3

/-- No asterisk and no underscore survives the cleaning pipeline. -/
theorem cleanGeneratedText_no_emphasis (s : String) (c : Char)
    (hc : c = '*' ∨ c = '_') : c ∉ (cleanGeneratedText s).data := by
  intro hmem
  simp only [cleanGeneratedText, pySubQuoted] at hmem
  rcases mem_pySubQuotedAux _ _ _ hmem with h | h
  · simp only [removeEmphasis, List.mem_filter] at h
    rcases hc with rfl | rfl <;> simp at h
  · rcases hc with rfl | rfl <;> simp at h

/-! ## Helper lemmas: personas, length tiers, retrieval, composition -/

theorem personaVoice_mem {name p : String} (h : personaVoice name = some p) :
    p ∈ PERSONAS.map Prod.snd := by
  unfold personaVoice at h
  cases hf : PERSONAS.find? (fun q => q.1 = name) with
  | none => rw [hf] at h; simp at h
  | some q =>
    rw [hf] at h
    simp at h
    have hq := List.mem_of_find?_eq_some hf
    rw [← h]
    exact List.mem_map_of_mem Prod.snd hq

theorem lengthInstruction_cases (msg : String) :
    lengthInstruction msg = "Keep your response to 1-2 sentences maximum (under 30 words)." ∨
    lengthInstruction msg = "Keep your response to 2-3 sentences (under 50 words)." ∨
    lengthInstruction msg = "Keep your response concise (under 80 words)." := by
  by_cases h1 : wordCount msg < 15
  · exact Or.inl (by simp [lengthInstruction, h1])
  · by_cases h2 : wordCount msg < 30
    · exact Or.inr (Or.inl (by simp [lengthInstruction, h1, h2]))
    · exact Or.inr (Or.inr (by simp [lengthInstruction, h1, h2]))

theorem retrieve_queries_eq (count : Nat) (q : Except Unit QueryResults) :
    (retrieve_relevant_context_rag count q).2 = if count = 0 then 0 else 1 := by
  unfold retrieve_relevant_context_rag
  by_cases h : count = 0
  · simp [h]
  · simp only [h, if_false]
    cases q with
    | error e => rfl
    | ok results =>
      obtain ⟨docs, metas⟩ := results
      cases docs with
      | nil => rfl
      | cons d ds =>
        cases d with
        | nil => rfl
        | cons s ss =>
          cases metas with
          | nil => rfl
          | cons m ms => rfl

/-- In rephrase mode the retrieved memory context plays no part in the
composed payload. -/
theorem composePrompt_hint_ignores_context (si msg stance hint mc mc' : String)
    (hh : hint ≠ "") :
    composePrompt si msg stance hint mc = composePrompt si msg stance hint mc' := by
  simp [composePrompt, hh]

/-! ## The claims -/

/-- Claim C1: starting from a cleared chat, a run of N successful
generations leaves the Memory collection holding exactly `min N 20`
Conversation Records, namely the most recent suffix of the records
inserted, in insertion order (the cap is enforced after each insert by
dropping the oldest records beyond 20). -/
theorem claim_C1 (chat_id : String) (ins : List StoreInput) :
    (runStores chat_id ins { records := [], seq := 0 }).records =
      (mintedRecords chat_id 0 ins).drop (ins.length - 20) ∧
    (runStores chat_id ins { records := [], seq := 0 }).records.length =
      min ins.length 20 := by
  have h := runStores_eq chat_id ins { records := [], seq := 0 } (by simp)
  constructor
  · rw [h]
    simp
  · rw [h]
    simp [List.length_drop, mintedRecords_length]
    omega

/-- Claim C2: the length directive is a function of the whitespace-split
word count of the raw message only — under 15 words gives the 30-word
directive, 15 to 29 the 50-word directive, 30 or more the 80-word
directive — and the directive appears in the composed system prompt in
both modes (for every stance, draft hint and memory context). -/
theorem claim_C2 (user_message : String) :
    (wordCount user_message < 15 →
      lengthInstruction user_message =
        "Keep your response to 1-2 sentences maximum (under 30 words).") ∧
    (15 ≤ wordCount user_message → wordCount user_message < 30 →
      lengthInstruction user_message =
        "Keep your response to 2-3 sentences (under 50 words).") ∧
    (30 ≤ wordCount user_message →
      lengthInstruction user_message = "Keep your response concise (under 80 words).") ∧
    (∀ system_instruction stance response_hint memory_context : String,
      (lengthInstruction user_message).data <:+:
        (composePrompt system_instruction user_message stance response_hint
          memory_context).system_prompt.data) := by
  refine ⟨fun h => by simp [lengthInstruction, h],
    fun h1 h2 => by
      simp [lengthInstruction, h2, show ¬ wordCount user_message < 15 by omega],
    fun h => by
      simp [lengthInstruction, show ¬ wordCount user_message < 15 by omega,
        show ¬ wordCount user_message < 30 by omega],
    ?_⟩
  intro si stance hint mc
  by_cases hh : hint = ""
  · rw [composePrompt, if_neg (by simp [hh])]
    exact ⟨(si ++ " " ++ ("Your response MUST " ++ pyUpper stance ++
        " with the user\x27s message. ")).data,
      (" " ++ textingDirective ++ " " ++ (if mc ≠ "" then memoryDirectiveText else "")).data,
      by simp [List.append_assoc]⟩
  · rw [composePrompt, if_pos hh]
    exact ⟨(si ++ " ").data, (" " ++ textingDirective).data,
      by simp [List.append_assoc]⟩

/-- Claim C2 witness: messages of 10, 20 and 40 words fall in the
30-word, 50-word and 80-word tiers respectively. -/
theorem claim_C2_witness :
    lengthInstruction "w1 w2 w3 w4 w5 w6 w7 w8 w9 w10" =
      "Keep your response to 1-2 sentences maximum (under 30 words)." ∧
    lengthInstruction
      "w1 w2 w3 w4 w5 w6 w7 w8 w9 w10 w11 w12 w13 w14 w15 w16 w17 w18 w19 w20" =
      "Keep your response to 2-3 sentences (under 50 words)." ∧
    lengthInstruction
      "w1 w2 w3 w4 w5 w6 w7 w8 w9 w10 w11 w12 w13 w14 w15 w16 w17 w18 w19 w20 w21 w22 w23 w24 w25 w26 w27 w28 w29 w30 w31 w32 w33 w34 w35 w36 w37 w38 w39 w40" =
      "Keep your response concise (under 80 words)." :=
  ⟨(claim_C2 "w1 w2 w3 w4 w5 w6 w7 w8 w9 w10").1 (by decide),
   (claim_C2
      "w1 w2 w3 w4 w5 w6 w7 w8 w9 w10 w11 w12 w13 w14 w15 w16 w17 w18 w19 w20").2.1
      (by decide) (by decide),
   (claim_C2
      "w1 w2 w3 w4 w5 w6 w7 w8 w9 w10 w11 w12 w13 w14 w15 w16 w17 w18 w19 w20 w21 w22 w23 w24 w25 w26 w27 w28 w29 w30 w31 w32 w33 w34 w35 w36 w37 w38 w39 w40").2.2.1
      (by decide)⟩

/-- Claim C7: context retrieval returns the empty string on an empty
collection (without querying) and on any query failure, and otherwise
returns either the empty string or the formatted context block; being a
total function of the query outcome, no retrieval exception reaches the
caller. -/
theorem claim_C7 (collection_count : Nat) (query : Except Unit QueryResults) :
    (collection_count = 0 →
      retrieve_relevant_context_rag collection_count query = ("", 0)) ∧
    (∀ e, query = Except.error e →
      (retrieve_relevant_context_rag collection_count query).1 = "") ∧
    ((retrieve_relevant_context_rag collection_count query).1 = "" ∨
      ∃ docs metas,
        (retrieve_relevant_context_rag collection_count query).1 =
          contextHeader ++ formatContextEntries 1 (List.zip docs metas) ++ contextFooter) := by
  refine ⟨fun h => by simp [retrieve_relevant_context_rag, h], ?_, ?_⟩
  · intro e he
    subst he
    by_cases h : collection_count = 0
    · simp [retrieve_relevant_context_rag, h]
    · simp [retrieve_relevant_context_rag, h]
  · by_cases h : collection_count = 0
    · simp [retrieve_relevant_context_rag, h]
    · cases query with
      | error e => simp [retrieve_relevant_context_rag, h]
      | ok results =>
        obtain ⟨docs, metas⟩ := results
        cases docs with
        | nil => simp [retrieve_relevant_context_rag, h]
        | cons d ds =>
          cases d with
          | nil => simp [retrieve_relevant_context_rag, h]
          | cons s ss =>
            cases metas with
            | nil => simp [retrieve_relevant_context_rag, h]
            | cons m ms =>
              right
              exact ⟨s :: ss, m, by simp [retrieve_relevant_context_rag, h]⟩

/-- Claim C7 witness: an empty collection yields the empty context and no
query; a failing query on a non-empty collection yields the empty context. -/
theorem claim_C7_witness :
    retrieve_relevant_context_rag 0 (Except.ok { documents := [], metadatas := [] }) =
      ("", 0) ∧
    (retrieve_relevant_context_rag 3 (Except.error ())).1 = "" :=
  ⟨(claim_C7 0 (Except.ok { documents := [], metadatas := [] })).1 rfl,
   (claim_C7 3 (Except.error ())).2.1 () rfl⟩

/-- Claim C8: clearing a chat's memory empties its record list and resets
its sequence counter to zero, and the first store after the clear gets
sequence number 1 and the id `chat_id` followed by an underscore and 1. -/
theorem claim_C8 (st : ServerState) (chat_id : String)
    (hchat : CHAT_IDS.contains chat_id = true)
    (user_message persona stance response timestamp : String) :
    ((clear_memory st chat_id).2.chats chat_id).records = [] ∧
    ((clear_memory st chat_id).2.chats chat_id).seq = 0 ∧
    (store_conversation_rag ((clear_memory st chat_id).2.chats chat_id) chat_id
        user_message persona stance response timestamp).seq = 1 ∧
    (store_conversation_rag ((clear_memory st chat_id).2.chats chat_id) chat_id
        user_message persona stance response timestamp).records =
      [{ conv_id := chat_id ++ "_1", user_message := user_message, response := response,
         persona := persona, stance := stance, timestamp := timestamp }] := by
  have hmem : chat_id ∈ CHAT_IDS := by simpa using hchat
  have hcm : (clear_memory st chat_id).2.chats chat_id = { records := [], seq := 0 } := by
    simp [clear_memory, hmem, updateChat]
  have hid : chat_id ++ "_" ++ Nat.repr 1 = chat_id ++ "_1" := by
    apply string_eq_of_data
    simp only [String.data_append]
    have h1 : (Nat.repr 1).data = ['1'] := by decide
    rw [h1]
    simp
  refine ⟨by rw [hcm], by rw [hcm], by rw [hcm]; rfl, ?_⟩
  rw [hcm]
  simp [store_conversation_rag, mkRecord, hid]

/-- Claim C8 witness: concrete clear followed by a store on the chat
Timo. -/
theorem claim_C8_witness :
    (store_conversation_rag
        ((clear_memory { chats := fun _ => { records := [], seq := 5 } } "Timo").2.chats
          "Timo") "Timo" "hi" "The Rebel" "Agree" "ok" "now").records =
      [{ conv_id := "Timo_1", user_message := "hi", response := "ok",
         persona := "The Rebel", stance := "Agree", timestamp := "now" }] :=
  (claim_C8 { chats := fun _ => { records := [], seq := 5 } } "Timo" (by decide)
    "hi" "The Rebel" "Agree" "ok" "now").2.2.2

/-- Claim C9: each store increments the chat's sequence counter first and
mints the id from the incremented value; across a run the minted ids carry
strictly increasing sequence numbers in insertion order and are pairwise
distinct. -/
theorem claim_C9 (chat_id : String) (st : ChatState)
    (user_message persona stance response timestamp : String)
    (ins : List StoreInput) (seq : Nat) :
    (store_conversation_rag st chat_id user_message persona stance response
        timestamp).seq = st.seq + 1 ∧
    store_conversation_rag st chat_id user_message persona stance response timestamp =
      { records := (st.records ++ [mkRecord chat_id (st.seq + 1) user_message persona
          stance response timestamp]).drop (st.records.length + 1 - 20)
        seq := st.seq + 1 } ∧
    mintedIds chat_id seq ins =
      (List.range ins.length).map (fun k => chat_id ++ "_" ++ Nat.repr (seq + k + 1)) ∧
    (mintedIds chat_id seq ins).Nodup :=
  ⟨by rw [store_conversation_rag_eq],
   store_conversation_rag_eq st chat_id user_message persona stance response timestamp,
   mintedIds_eq chat_id ins seq,
   mintedIds_nodup chat_id ins seq⟩

/-- Claim C3 counterexample: in `he said "hello there"` the closing quote
is at the end of the text, the regex requires trailing whitespace after
the quoted run, so the quotes are kept — the text is returned unchanged,
not as `he said hello there`. -/
theorem claim_C3_counterexample :
    cleanGeneratedText "he said \"hello there\"" = "he said \"hello there\"" ∧
    cleanGeneratedText "he said \"hello there\"" ≠ "he said hello there" := by
  constructor
  · rfl
  · decide

/-- Claim C3 (amended): post-processing strips outer whitespace, removes
every asterisk and underscore, then strips the quotation marks around a
run of 1-30 non-quote characters only when whitespace bounds the quotes on
both sides; `**bold**` and `_italic_` lose their markers, a short quoted
phrase with whitespace on both sides is unquoted, while a quoted phrase at
the very end of the text keeps its quotes. -/
theorem claim_C3_amended :
    (∀ s : String, (cleanGeneratedText s).data.count '*' = 0 ∧
      (cleanGeneratedText s).data.count '_' = 0) ∧
    cleanGeneratedText "**bold**" = "bold" ∧
    cleanGeneratedText "_italic_" = "italic" ∧
    cleanGeneratedText "he said \"hello there\" ok" = "he said hello there ok" ∧
    cleanGeneratedText "he said \"hello there\"" = "he said \"hello there\"" := by
  refine ⟨?_, by decide, by decide, by decide, by decide⟩
  intro s
  constructor
  · exact List.count_eq_zero.mpr (cleanGeneratedText_no_emphasis s '*' (Or.inl rfl))
  · exact List.count_eq_zero.mpr (cleanGeneratedText_no_emphasis s '_' (Or.inr rfl))

/-- Claim C5 counterexample: in rephrase mode (non-empty draft) with a
non-empty collection, one similarity query is still performed. -/
theorem claim_C5_counterexample :
    (generate_reply "The Rebel" "hello" "Agree" 1 "draft"
        (Except.ok { documents := [], metadatas := [] })
        (Upstream.netError "e")).retrieval_queries = 1 := rfl

/-- Claim C5 (amended): retrieval is not skipped in rephrase mode — a
similarity query runs whenever the collection is non-empty (none when it
is empty) — but its outcome is unused: the composed payload is the same
for every query result. -/
theorem claim_C5_amended (persona_name user_message stance response_hint : String)
    (collection_count : Nat) (q q' : Except Unit QueryResults) (u u' : Upstream)
    (hh : response_hint ≠ "") :
    (generate_reply persona_name user_message stance collection_count response_hint q
        u).retrieval_queries = (if collection_count = 0 then 0 else 1) ∧
    (generate_reply persona_name user_message stance collection_count response_hint q
        u).payload =
      (generate_reply persona_name user_message stance collection_count response_hint q'
        u').payload := by
  constructor
  · simp [generate_reply, retrieve_queries_eq]
  · simp only [generate_reply]
    exact composePrompt_hint_ignores_context _ _ _ _ _ _ hh

/-- Claim C5 witness: with a one-record collection and a draft present,
the payload is the same whether the query succeeds or raises. -/
theorem claim_C5_witness :
    (generate_reply "The Rebel" "hello" "Agree" 1 "draft"
        (Except.ok { documents := [], metadatas := [] })
        (Upstream.netError "e")).payload =
      (generate_reply "The Rebel" "hello" "Agree" 1 "draft" (Except.error ())
        (Upstream.netError "x")).payload :=
  (claim_C5_amended "The Rebel" "hello" "Agree" "draft" 1
    (Except.ok { documents := [], metadatas := [] }) (Except.error ())
    (Upstream.netError "e") (Upstream.netError "x") (by decide)).2

/-- Claim C4 counterexample: in rephrase mode the rephrase directive is
placed in the user content, not in the system prompt — at this concrete
request the composed system prompt does not contain the rephrase
directive. -/
theorem claim_C4_counterexample :
    ¬ (taskInstructionOf "sure, count me in").data <:+:
      (generate_reply "The Rebel" "are we going?" "Agree" 0 "sure, count me in"
        (Except.ok { documents := [], metadatas := [] })
        (Upstream.netError "e")).payload.system_prompt.data := by decide

/-- Claim C4 (amended): in rephrase mode the rephrase directive appears in
the composed user content (rather than the system prompt); the system
prompt never contains the stance directive text, whatever stance was
supplied; and the retrieved memory context is unused — the payload is the
same for every memory context. -/
theorem claim_C4_amended (persona_name user_message stance response_hint mc : String)
    (hp : (personaVoice persona_name).isSome = true)
    (hh : response_hint ≠ "") :
    ((taskInstructionOf response_hint).data <:+:
      (composePrompt ((personaVoice persona_name).getD "") user_message stance
        response_hint mc).user_content.data) ∧
    (∀ s : String,
      ¬ ("Your response MUST " ++ pyUpper s ++ " with the user\x27s message.").data <:+:
        (composePrompt ((personaVoice persona_name).getD "") user_message stance
          response_hint mc).system_prompt.data) ∧
    (∀ mc' : String,
      composePrompt ((personaVoice persona_name).getD "") user_message stance
        response_hint mc' =
      composePrompt ((personaVoice persona_name).getD "") user_message stance
        response_hint mc) := by
  obtain ⟨p, hp'⟩ := Option.isSome_iff_exists.mp hp
  rw [hp']
  simp only [Option.getD_some]
  refine ⟨?_, ?_, fun mc' => composePrompt_hint_ignores_context p user_message stance
    response_hint mc' mc hh⟩
  · rw [composePrompt, if_pos hh]
    exact ⟨("Incoming message: " ++ user_message ++ "\n\nUser\x27s draft response: " ++
      response_hint ++ "\n\n").data, [], by simp [List.append_assoc]⟩
  · intro s hs
    have hpre : ("Your response MUST" : String).data <+:
        ("Your response MUST " ++ pyUpper s ++ " with the user\x27s message.").data :=
      ⟨(" " ++ pyUpper s ++ " with the user\x27s message.").data, by
        simp [List.append_assoc]⟩
    have hm := hpre.isInfix.trans hs
    rw [composePrompt, if_pos hh] at hm
    simp only at hm
    have hmem := personaVoice_mem hp'
    simp only [PERSONAS, List.map_cons, List.map_nil, List.mem_cons,
      List.not_mem_nil, or_false] at hmem
    rcases lengthInstruction_cases user_message with hL | hL | hL <;>
      rw [hL] at hm <;>
      rcases hmem with rfl | rfl | rfl | rfl | rfl <;>
      revert hm <;> decide

/-- Claim C4 witness: concrete rephrase request on the persona
The Rebel. -/
theorem claim_C4_witness :
    (taskInstructionOf "sounds good").data <:+:
      (composePrompt ((personaVoice "The Rebel").getD "") "are we going?" "Agree"
        "sounds good" "").user_content.data :=
  (claim_C4_amended "The Rebel" "are we going?" "Agree" "sounds good" ""
    (by decide) (by decide)).1

/-- Claim C6: on any failed generation the endpoint returns the structured
failure result and leaves the server state (every chat's records and
counter) unchanged; with a single SAFETY-blocked candidate carrying no
parts, the error message is "Response blocked by safety filters.". -/
theorem claim_C6 (api_key : String) (req : GenRequest) (st : ServerState)
    (query : Except Unit QueryResults) (now : String)
    (hkey : api_key ≠ "")
    (hmsg : pyStripStr (req.message.getD "") ≠ "")
    (hper : (personaVoice (req.persona.getD "")).isSome = true)
    (hchat : CHAT_IDS.contains (req.chat_id.getD "Timo") = true) :
    (∀ upstream err,
      parseApiResponse (req.persona.getD "") upstream = GenResult.fail err →
      generate_single_reply api_key req st query upstream now =
        (EndpointResult.okResult (GenResult.fail err), st)) ∧
    generate_single_reply api_key req st query
        (Upstream.response
          { candidates := some [{ finishReason := some "SAFETY", parts := [] }] }) now =
      (EndpointResult.okResult (GenResult.fail "Response blocked by safety filters."),
        st) := by
  obtain ⟨pv, hpv⟩ := Option.isSome_iff_exists.mp hper
  have hmemc : req.chat_id.getD "Timo" ∈ CHAT_IDS := by simpa using hchat
  have hmain : ∀ upstream err,
      parseApiResponse (req.persona.getD "") upstream = GenResult.fail err →
      generate_single_reply api_key req st query upstream now =
        (EndpointResult.okResult (GenResult.fail err), st) := by
    intro upstream err hfail
    simp [generate_single_reply, generate_reply, hkey, hmsg, hpv, hmemc, hfail]
  refine ⟨hmain, hmain _ _ ?_⟩
  rfl

/-- Claim C6 witness: the end-to-end SAFETY scenario on chat Timo with
persona The Rebel leaves the state untouched and reports the safety
error. -/
theorem claim_C6_witness :
    generate_single_reply "key"
        { message := some "Is pineapple on pizza good?", persona := some "The Rebel",
          stance := some "Disagree", chat_id := some "Timo", response_hint := none }
        { chats := fun _ => { records := [], seq := 0 } }
        (Except.ok { documents := [], metadatas := [] })
        (Upstream.response
          { candidates := some [{ finishReason := some "SAFETY", parts := [] }] }) "now" =
      (EndpointResult.okResult (GenResult.fail "Response blocked by safety filters."),
        { chats := fun _ => { records := [], seq := 0 } }) :=
  (claim_C6 "key"
    { message := some "Is pineapple on pizza good?", persona := some "The Rebel",
      stance := some "Disagree", chat_id := some "Timo", response_hint := none }
    { chats := fun _ => { records := [], seq := 0 } }
    (Except.ok { documents := [], metadatas := [] }) "now"
    (by decide) (by decide) (by decide) (by decide)).2

/-- Claim C10: a request that omits chat_id, stance or response_hint is
processed with the defaults Timo, Agree and the empty draft; the endpoint
answers 400 exactly when the stripped message is empty, the persona is
unknown, or the supplied chat id is unknown. -/
theorem claim_C10 (api_key : String) (req : GenRequest) (st : ServerState)
    (query : Except Unit QueryResults) (upstream : Upstream) (now : String)
    (hkey : api_key ≠ "") :
    (generate_single_reply api_key { req with chat_id := none } st query upstream now =
      generate_single_reply api_key { req with chat_id := some "Timo" } st query
        upstream now) ∧
    (generate_single_reply api_key { req with stance := none } st query upstream now =
      generate_single_reply api_key { req with stance := some "Agree" } st query
        upstream now) ∧
    (generate_single_reply api_key { req with response_hint := none } st query upstream
        now =
      generate_single_reply api_key { req with response_hint := some "" } st query
        upstream now) ∧
    ((∃ e, (generate_single_reply api_key req st query upstream now).1 =
        EndpointResult.badRequest e) ↔
      (pyStripStr (req.message.getD "") = "" ∨
        (personaVoice (req.persona.getD "")).isSome = false ∨
        CHAT_IDS.contains (req.chat_id.getD "Timo") = false)) := by
  refine ⟨rfl, rfl, rfl, ?_⟩
  by_cases h1 : pyStripStr (req.message.getD "") = ""
  · simp [generate_single_reply, hkey, h1]
  · cases hp : personaVoice (req.persona.getD "") with
    | none => simp [generate_single_reply, hkey, h1, hp]
    | some pv =>
      by_cases h3 : CHAT_IDS.contains (req.chat_id.getD "Timo") = true
      · simp only [generate_single_reply, generate_reply, hkey, h1, hp, h3]
        cases hres : parseApiResponse (req.persona.getD "") upstream with
        | ok r p => simp [hres, h1, hp, h3]
        | fail e => simp [hres, h1, hp, h3]
      · have h3' : CHAT_IDS.contains (req.chat_id.getD "Timo") = false := by
          cases hb : CHAT_IDS.contains (req.chat_id.getD "Timo")
          · rfl
          · exact absurd hb h3
        have hnot : req.chat_id.getD "Timo" ∉ CHAT_IDS := by simpa using h3'
        simp [generate_single_reply, hkey, h1, hp, h3', hnot]

/-- Claim C10 witness: a request omitting chat_id behaves exactly as one
naming Timo. -/
theorem claim_C10_witness :
    generate_single_reply "key"
        { message := some "hello", persona := some "The Rebel", stance := none,
          chat_id := none, response_hint := none }
        { chats := fun _ => { records := [], seq := 0 } }
        (Except.ok { documents := [], metadatas := [] }) (Upstream.netError "e") "now" =
      generate_single_reply "key"
        { message := some "hello", persona := some "The Rebel", stance := none,
          chat_id := some "Timo", response_hint := none }
        { chats := fun _ => { records := [], seq := 0 } }
        (Except.ok { documents := [], metadatas := [] }) (Upstream.netError "e") "now" :=
  (claim_C10 "key"
    { message := some "hello", persona := some "The Rebel", stance := none,
      chat_id := none, response_hint := none }
    { chats := fun _ => { records := [], seq := 0 } }
    (Except.ok { documents := [], metadatas := [] }) (Upstream.netError "e") "now"
    (by decide)).1

end LazyTexter
